import Mathlib

/-!
Shallow embedding of the Nagar-Rakshak chat widget
(src/ChatInterface.tsx and src/EmailModal.tsx).

The ChatInterface component state is the React state of the component
plus the lastBotMessage cache that the component writes through the
setLastBotMessage prop.  Message content is an Option String because the
code stores data.response unchecked: a 2xx body without the response
field yields the JavaScript value undefined, modelled as none.
-/

/-- Message role, from the Message interface in src/ChatInterface.tsx. -/
inductive Role where
  | user
  | assistant
deriving DecidableEq, Repr

/-- A chat message: role plus content.  Content is Option String so that
the undefined produced by reading a missing response field is representable
as none; a real string is some s. -/
structure Message where
  role : Role
  content : Option String
deriving DecidableEq, Repr

/-- Combined state of the ChatInterface component: its React useState
fields (messages, input, isLoading, error, isSpeaking), the currentChat
prop, the lastBotMessage cache written via the setLastBotMessage prop,
and the platform speech engine (availability flag and utterance queue). -/
structure ChatState where
  currentChat : Option String
  messages : List Message
  input : String
  isLoading : Bool
  error : Option String
  isSpeaking : Bool
  lastBotMessage : Option String
  speechSupported : Bool
  speechQueue : List String
deriving DecidableEq, Repr

/-- Outcome of the fetch to /ask_bot observed by handleSubmit:
either the promise rejects (transport error), or an HTTP response arrives
with its ok flag and the optional response field of the JSON body
(none models a body in which the field is missing). -/
inductive AskBotResult where
  | transportError
  | httpResponse (ok : Bool) (respField : Option String)
deriving DecidableEq, Repr

/-- One element of the conversationsNew array on the wire:
the code maps each prior message to an object with sender and text. -/
structure WireMessage where
  sender : Role
  text : Option String
deriving DecidableEq, Repr

/-- The wrapper object the code builds per prior message:
msg maps to a singleton messages array. -/
structure ConversationWrapper where
  messages : List WireMessage
deriving DecidableEq, Repr

/-- Body of the POST to /ask_bot built in handleSubmit. -/
structure AskBotRequest where
  conversationsNew : List ConversationWrapper
  question : String
deriving DecidableEq, Repr

/-- The guard at the top of handleSubmit is the JavaScript test
!input.trim(): it fires exactly when every character of the input is
whitespace (trim of such a string is the empty string, which is falsy).
Embedded as the executable whitespace-only test on the character list. -/
def isBlank (s : String) : Bool :=
  s.data.all Char.isWhitespace

/-- The literal user-facing error text set by the catch block of
handleSubmit in src/ChatInterface.tsx. -/
def errorText : String :=
  "An error occurred while fetching the response. Please try again."

/-- The request body built inside handleSubmit (src/ChatInterface.tsx
lines 59 to 62): conversationsNew maps over the captured messages state,
which is the pre-submission log, and question is the captured input. -/
def askBotRequest (s : ChatState) : AskBotRequest :=
  { conversationsNew :=
      s.messages.map fun msg =>
        { messages := [{ sender := msg.role, text := msg.content }] },
    question := s.input }

/-- The list of network requests one handleSubmit call issues: none when
the trimmed input is empty (the early return at line 45), otherwise
exactly the one fetch to /ask_bot. -/
def submitRequests (s : ChatState) : List AskBotRequest :=
  if isBlank s.input then [] else [askBotRequest s]

/-- The synchronous phase of handleSubmit (lines 47 to 51): append the
user message built from the captured input, clear the input buffer, set
isLoading, clear error.  The guard on blank input is applied by
handleSubmit below. -/
def submitPhase1 (s : ChatState) : ChatState :=
  { s with
    messages := s.messages ++ [{ role := Role.user, content := some s.input }],
    input := "",
    isLoading := true,
    error := none }

/-- The resolution phase of handleSubmit (lines 65 to 78), running when
the fetch settles, over whatever the component state is at that moment:
on a non-ok status the code throws and the catch block sets error; on
an ok status it appends an assistant message whose content is the raw
response field (possibly missing) and writes it to the lastBotMessage
cache; the finally block clears isLoading in every case.  The assistant
append in the source is a functional update, so it extends the state
current at resolution time, not the state captured at submit time. -/
def submitPhase2 (s : ChatState) (r : AskBotResult) : ChatState :=
  match r with
  | AskBotResult.transportError =>
      { s with error := some errorText, isLoading := false }
  | AskBotResult.httpResponse ok resp =>
      if ok then
        { s with
          messages := s.messages ++ [{ role := Role.assistant, content := resp }],
          lastBotMessage := resp,
          isLoading := false }
      else
        { s with error := some errorText, isLoading := false }

/-- handleSubmit without interleaving: the blank-input guard, then both
phases back to back (the fetch resolves with no intervening event). -/
def handleSubmit (s : ChatState) (r : AskBotResult) : ChatState :=
  if isBlank s.input then s else submitPhase2 (submitPhase1 s) r

/-- The reset effect (src/ChatInterface.tsx lines 23 to 25): whenever the
currentChat prop changes, setMessages([]) runs.  It touches no other
field; in particular it does not write the lastBotMessage cache. -/
def resetEffect (s : ChatState) (newChat : Option String) : ChatState :=
  { s with currentChat := newChat, messages := [] }

/-- speakMessage (lines 94 to 147): when the platform has speech
synthesis, cancel any queued utterance and enqueue a fresh one for the
text, so the engine queue becomes the singleton of the new text; when
unsupported, log and do nothing.  The isSpeaking flag changes only via
the utterance start and end events, modelled separately below. -/
def speakMessage (text : String) (s : ChatState) : ChatState :=
  if s.speechSupported then { s with speechQueue := [text] } else s

/-- stopSpeaking (lines 149 to 154): when supported, cancel the queue and
set isSpeaking to false; otherwise do nothing. -/
def stopSpeaking (s : ChatState) : ChatState :=
  if s.speechSupported then { s with speechQueue := [], isSpeaking := false } else s

/-- The onstart callback of the utterance (line 140): sets isSpeaking. -/
def utteranceStart (s : ChatState) : ChatState :=
  { s with isSpeaking := true }

/-- The onend callback of the utterance (line 141) together with the
engine retiring the finished utterance from its queue. -/
def utteranceEnd (s : ChatState) : ChatState :=
  { s with isSpeaking := false, speechQueue := s.speechQueue.drop 1 }

/-- The UI events that drive the ChatInterface component state. -/
inductive ChatEvent where
  | setInput (t : String)
  | submit (r : AskBotResult)
  | reset (c : Option String)
  | speak (t : String)
  | stopSpeak
  | speechStart
  | speechEnd
deriving DecidableEq, Repr

/-- One step of the component under a UI event. -/
def stepChat (s : ChatState) (e : ChatEvent) : ChatState :=
  match e with
  | ChatEvent.setInput t => { s with input := t }
  | ChatEvent.submit r => handleSubmit s r
  | ChatEvent.reset c => resetEffect s c
  | ChatEvent.speak t => speakMessage t s
  | ChatEvent.stopSpeak => stopSpeaking s
  | ChatEvent.speechStart => utteranceStart s
  | ChatEvent.speechEnd => utteranceEnd s

/-- Initial component state: every useState initializer in
src/ChatInterface.tsx (empty log, empty input, no error, not loading,
not speaking), no chat selected, empty engine queue. -/
def initChatState (supported : Bool) : ChatState :=
  { currentChat := none,
    messages := [],
    input := "",
    isLoading := false,
    error := none,
    isSpeaking := false,
    lastBotMessage := none,
    speechSupported := supported,
    speechQueue := [] }

/-- Run a sequence of UI events from a state. -/
def runChat (s : ChatState) (es : List ChatEvent) : ChatState :=
  es.foldl stepChat s

/-!  Report Dispatch Dialog (src/EmailModal.tsx).  -/

/-- Body of the POST to /send_email built in the handleSubmit of
src/EmailModal.tsx (lines 24 to 28).  The recipient field is named
to on the wire; renamed here because to is reserved in Lean. -/
structure EmailRequest where
  recipient : String
  subject : String
  body : String
deriving DecidableEq, Repr

/-- State of the EmailModal component: the isOpen prop controlled by the
parent, the two useState fields (email, sending), and the lastBotMessage
prop it reads.  The component stays mounted while hidden: the source
renders null when isOpen is false, which does not reset useState. -/
structure EmailModalState where
  isOpen : Bool
  email : String
  sending : Bool
  lastBotMessage : String
deriving DecidableEq, Repr

/-- The request the dialog sends on dispatch: recipient is the entered
email, subject is the fixed literal, body is the lastBotMessage prop
verbatim (src/EmailModal.tsx lines 24 to 28). -/
def emailRequest (s : EmailModalState) : EmailRequest :=
  { recipient := s.email, subject := "Police Report Summary", body := s.lastBotMessage }

/-- The list of requests one dispatch issues: exactly one fetch. -/
def dispatchRequests (s : EmailModalState) : List EmailRequest :=
  [emailRequest s]

/-- Closing the dialog: the parent flips the isOpen prop; the component
renders null but keeps its useState fields. -/
def closeModal (s : EmailModalState) : EmailModalState :=
  { s with isOpen := false }

/-- Opening the dialog: the parent flips the isOpen prop back. -/
def openModal (s : EmailModalState) : EmailModalState :=
  { s with isOpen := true }

/-!
Helper lemmas shared by the claim theorems.
-/

/-- The resolution phase of a submit never touches the speech engine queue. -/
theorem submitPhase2_speechQueue (s : ChatState) (r : AskBotResult) :
    (submitPhase2 s r).speechQueue = s.speechQueue := by
  cases r with
  | transportError => rfl
  | httpResponse ok resp => cases ok <;> rfl

/-- A whole submit never touches the speech engine queue. -/
theorem handleSubmit_speechQueue (s : ChatState) (r : AskBotResult) :
    (handleSubmit s r).speechQueue = s.speechQueue := by
  unfold handleSubmit
  split
  · rfl
  · rw [submitPhase2_speechQueue]; rfl

/-- Every UI event preserves the invariant that the engine queue holds at
most one utterance: speak always cancels before enqueueing, stop clears
the queue, and no other event enlarges it. -/
theorem stepChat_speechQueue_le_one (s : ChatState) (e : ChatEvent)
    (h : s.speechQueue.length ≤ 1) : (stepChat s e).speechQueue.length ≤ 1 := by
  cases e with
  | setInput t => exact h
  | submit r => rw [stepChat, handleSubmit_speechQueue]; exact h
  | reset c => exact h
  | speak t =>
      simp only [stepChat, speakMessage]
      split
      · simp
      · exact h
  | stopSpeak =>
      simp only [stepChat, stopSpeaking]
      split
      · simp
      · exact h
  | speechStart => exact h
  | speechEnd =>
      simp only [stepChat, utteranceEnd]
      calc (s.speechQueue.drop 1).length ≤ s.speechQueue.length := by
            simp [List.length_drop]
        _ ≤ 1 := h

/-- The at-most-one-utterance invariant holds along any event sequence. -/
theorem runChat_speechQueue_le_one (es : List ChatEvent) (s : ChatState)
    (h : s.speechQueue.length ≤ 1) : (runChat s es).speechQueue.length ≤ 1 := by
  induction es generalizing s with
  | nil => exact h
  | cons e rest ih => exact ih (stepChat s e) (stepChat_speechQueue_le_one s e h)

/-- Mapping each prior message to its wire wrapper is pointwise exact. -/
theorem forall2_wrapper (ms : List Message) :
    List.Forall₂
      (fun (m : Message) (w : ConversationWrapper) =>
        w = { messages := [{ sender := m.role, text := m.content }] })
      ms
      (ms.map fun m => { messages := [{ sender := m.role, text := m.content }] }) := by
  induction ms with
  | nil => exact List.Forall₂.nil
  | cons m rest ih => exact List.Forall₂.cons rfl ih

/-!
Claim theorems.
-/

/-- A submit is pending in chat-A: the user message was appended and the
fetch is in flight. -/
def c1Start : ChatState :=
  { initChatState true with currentChat := some ("chat-A"), input := "what now?" }

/-- C1: the claim says a backend response arriving after the session has
been reset is discarded.  The code does the opposite: the success branch
appends the assistant message through a functional state update and
writes the lastBotMessage cache unconditionally, so after switching from
chat-A to chat-B the late reply lands in the fresh empty log of chat-B
and becomes the cached last assistant message of the new session. -/
theorem c1_late_reply_applied_after_reset :
    (resetEffect (submitPhase1 c1Start) (some ("chat-B"))).messages = []
    ∧ (resetEffect (submitPhase1 c1Start) (some ("chat-B"))).currentChat = some ("chat-B")
    ∧ (submitPhase2 (resetEffect (submitPhase1 c1Start) (some ("chat-B")))
          (AskBotResult.httpResponse true (some ("file a report")))).messages =
        [{ role := Role.assistant, content := some ("file a report") }]
    ∧ (submitPhase2 (resetEffect (submitPhase1 c1Start) (some ("chat-B")))
          (AskBotResult.httpResponse true (some ("file a report")))).lastBotMessage =
        some ("file a report") := by
  refine ⟨rfl, rfl, rfl, rfl⟩

/-- A session in chat-A holding one exchange and a cached last reply. -/
def c2Sample : ChatState :=
  { initChatState true with
      currentChat := some ("chat-A"),
      messages := [{ role := Role.user, content := some ("hello") },
                   { role := Role.assistant, content := some ("hi there") }],
      lastBotMessage := some ("hi there") }

/-- C2 counterexample: the claim says reset clears lastAssistantMessage.
On a concrete prior state the reset effect empties the log but the cache
still holds the old reply, refuting the clearing part of the claim. -/
theorem c2_reset_keeps_lastBotMessage :
    (resetEffect c2Sample (some ("chat-B"))).messages = []
    ∧ (resetEffect c2Sample (some ("chat-B"))).lastBotMessage = some ("hi there")
    ∧ (resetEffect c2Sample (some ("chat-B"))).lastBotMessage ≠ none := by
  refine ⟨rfl, rfl, by decide⟩

/-- C2 (amended): for every prior state, reset yields an empty message
log and installs the new chat identifier, but leaves lastBotMessage
unchanged: the cache keeps the previous session reply until a new
assistant reply overwrites it. -/
theorem c2_reset_empties_log_preserves_cache (s : ChatState) (c : Option String) :
    (resetEffect s c).messages = []
    ∧ (resetEffect s c).lastBotMessage = s.lastBotMessage
    ∧ (resetEffect s c).currentChat = c :=
  ⟨rfl, rfl, rfl⟩

/-- A session about to submit the question q, with a cached old reply. -/
def c3Start : ChatState :=
  { initChatState true with
      currentChat := some ("chat-A"),
      input := "q",
      lastBotMessage := some ("old reply") }

/-- C3: the claim says a 2xx response whose body lacks the response field
is treated as a failure.  The code reads data.response unchecked, so at
this input it appends an assistant message whose content is the missing
value, overwrites the lastBotMessage cache with it, and records no
error: the log grows by two, not by one as on a transport failure. -/
theorem c3_missing_field_still_appends :
    (handleSubmit c3Start (AskBotResult.httpResponse true none)).messages =
      [{ role := Role.user, content := some ("q") },
       { role := Role.assistant, content := none }]
    ∧ (handleSubmit c3Start (AskBotResult.httpResponse true none)).lastBotMessage = none
    ∧ (handleSubmit c3Start (AskBotResult.httpResponse true none)).lastBotMessage
        ≠ c3Start.lastBotMessage
    ∧ (handleSubmit c3Start (AskBotResult.httpResponse true none)).error = none := by
  refine ⟨rfl, rfl, by decide, rfl⟩

/-- An open dialog with a partially entered recipient address. -/
def c4Sample : EmailModalState :=
  { isOpen := true, email := "citizen@example.com", sending := false,
    lastBotMessage := "report" }

/-- C4 counterexample: the claim says closing discards the entered
address.  The component only stops rendering while hidden; its useState
fields survive, so after close then open the address field still holds
the previously entered value instead of being empty. -/
theorem c4_close_keeps_address :
    (openModal (closeModal c4Sample)).email = "citizen@example.com"
    ∧ (openModal (closeModal c4Sample)).email ≠ "" := by
  refine ⟨rfl, by decide⟩

/-- C4 (amended): closing the dialog is a pure visibility toggle that
preserves the entered address and the rest of the component state; the
address is cleared only when the component is created afresh. -/
theorem c4_close_preserves_entered_state (s : EmailModalState) :
    (openModal (closeModal s)).email = s.email
    ∧ (openModal (closeModal s)).sending = s.sending
    ∧ (openModal (closeModal s)).lastBotMessage = s.lastBotMessage
    ∧ (openModal (closeModal s)).isOpen = true :=
  ⟨rfl, rfl, rfl, rfl⟩

/-- C5: for every submit call, with whitespace-only input the state is
unchanged and no network request is issued; with non-blank input the log
gains exactly the user message followed by the assistant message when
the backend answers with an ok status (length plus two), and exactly the
user message when the fetch rejects or the status is not ok (length plus
one). -/
theorem c5_submit_log_length (s : ChatState) :
    (isBlank s.input = true → (∀ r, handleSubmit s r = s) ∧ submitRequests s = [])
    ∧ (isBlank s.input = false →
        (∀ resp, (handleSubmit s (AskBotResult.httpResponse true resp)).messages
              = s.messages ++ [{ role := Role.user, content := some s.input },
                               { role := Role.assistant, content := resp }]
          ∧ (handleSubmit s (AskBotResult.httpResponse true resp)).messages.length
              = s.messages.length + 2)
        ∧ ((handleSubmit s AskBotResult.transportError).messages
              = s.messages ++ [{ role := Role.user, content := some s.input }]
          ∧ (handleSubmit s AskBotResult.transportError).messages.length
              = s.messages.length + 1)
        ∧ (∀ resp, (handleSubmit s (AskBotResult.httpResponse false resp)).messages
              = s.messages ++ [{ role := Role.user, content := some s.input }]
          ∧ (handleSubmit s (AskBotResult.httpResponse false resp)).messages.length
              = s.messages.length + 1)) := by
  constructor
  · intro h
    exact ⟨fun r => by simp [handleSubmit, h], by simp [submitRequests, h]⟩
  · intro h
    refine ⟨fun resp => ⟨?_, ?_⟩, ⟨?_, ?_⟩, fun resp => ⟨?_, ?_⟩⟩ <;>
      simp [handleSubmit, h, submitPhase1, submitPhase2]

/-- A fresh session whose input buffer holds only spaces. -/
def c5Blank : ChatState := { initChatState true with input := "   " }

/-- A fresh session whose input buffer holds the question q. -/
def c5Filled : ChatState := { initChatState true with input := "q" }

/-- Witness for C5 at concrete inputs: a whitespace-only submit is a
no-op, and a successful submit grows the empty log to length two. -/
theorem c5_submit_log_length_witness :
    handleSubmit c5Blank AskBotResult.transportError = c5Blank
    ∧ (handleSubmit c5Filled (AskBotResult.httpResponse true (some ("a")))).messages.length
        = c5Filled.messages.length + 2 :=
  ⟨((c5_submit_log_length c5Blank).1 (by decide)).1 AskBotResult.transportError,
   (((c5_submit_log_length c5Filled).2 (by decide)).1 (some ("a"))).2⟩

/-- The failure condition of the fetch as observed by the catch block:
the promise rejected, or the ok flag of the response is false (the code
then throws before reading the body). -/
def isFailureResult (r : AskBotResult) : Bool :=
  match r with
  | AskBotResult.transportError => true
  | AskBotResult.httpResponse ok _ => !ok

/-- C6: every failing submit (transport error or non-ok status) records
the user-facing error text, clears the loading flag, appends no
assistant message, leaves the optimistic user append in place, and does
not touch the lastBotMessage cache. -/
theorem c6_failure_keeps_user_message (s : ChatState) (r : AskBotResult)
    (h1 : isBlank s.input = false) (h2 : isFailureResult r = true) :
    (handleSubmit s r).error = some errorText
    ∧ (handleSubmit s r).isLoading = false
    ∧ (handleSubmit s r).messages
        = s.messages ++ [{ role := Role.user, content := some s.input }]
    ∧ (handleSubmit s r).lastBotMessage = s.lastBotMessage := by
  cases r with
  | transportError =>
      refine ⟨?_, ?_, ?_, ?_⟩ <;> simp [handleSubmit, h1, submitPhase1, submitPhase2]
  | httpResponse ok resp =>
      have hok : ok = false := by
        cases ok
        · rfl
        · simp [isFailureResult] at h2
      subst hok
      refine ⟨?_, ?_, ?_, ?_⟩ <;> simp [handleSubmit, h1, submitPhase1, submitPhase2]

/-- A session with one prior user message, about to submit a question. -/
def c6Sample : ChatState :=
  { initChatState true with
      currentChat := some ("chat-A"),
      messages := [{ role := Role.user, content := some ("hello") }],
      input := "are you there?" }

/-- Witness for C6 at a concrete failing submit. -/
theorem c6_failure_keeps_user_message_witness :
    (handleSubmit c6Sample AskBotResult.transportError).error = some errorText
    ∧ (handleSubmit c6Sample AskBotResult.transportError).messages
        = c6Sample.messages ++ [{ role := Role.user, content := some ("are you there?") }] :=
  ⟨(c6_failure_keeps_user_message c6Sample AskBotResult.transportError
      (by decide) (by decide)).1,
   (c6_failure_keeps_user_message c6Sample AskBotResult.transportError
      (by decide) (by decide)).2.2.1⟩

/-- C7: every non-blank submit issues exactly one request whose question
field is the raw input and whose conversationsNew field has one wrapper
object per message of the pre-submission log, each wrapper holding the
singleton sender-and-text translation of its message; the just-appended
user turn is excluded because the request is built from the log captured
before the submit. -/
theorem c7_request_shape (s : ChatState) (h : isBlank s.input = false) :
    submitRequests s = [askBotRequest s]
    ∧ (askBotRequest s).question = s.input
    ∧ (askBotRequest s).conversationsNew.length = s.messages.length
    ∧ List.Forall₂
        (fun (m : Message) (w : ConversationWrapper) =>
          w = { messages := [{ sender := m.role, text := m.content }] })
        s.messages (askBotRequest s).conversationsNew := by
  refine ⟨by simp [submitRequests, h], rfl, by simp [askBotRequest], ?_⟩
  exact forall2_wrapper s.messages

/-- A session holding one prior exchange, about to submit a question. -/
def c7Sample : ChatState :=
  { initChatState true with
      currentChat := some ("chat-A"),
      messages := [{ role := Role.user, content := some ("hello") },
                   { role := Role.assistant, content := some ("hi there") }],
      input := "what now?" }

/-- Witness for C7 at a concrete pre-submission state. -/
theorem c7_request_shape_witness :
    submitRequests c7Sample = [askBotRequest c7Sample]
    ∧ (askBotRequest c7Sample).question = c7Sample.input :=
  ⟨(c7_request_shape c7Sample (by decide)).1,
   (c7_request_shape c7Sample (by decide)).2.1⟩

/-- C8: speaking b right after a cancels a and leaves the engine queue
holding exactly the utterance for b; the speaking flag is true once the
utterance start event fires and false after stop or after the natural
end event; stop is idempotent; and along every event sequence from the
initial state the engine queue never holds more than one utterance. -/
theorem c8_at_most_one_utterance (a b : String) (s : ChatState) (es : List ChatEvent)
    (h : s.speechSupported = true) :
    (speakMessage b (speakMessage a s)).speechQueue = [b]
    ∧ (utteranceStart s).isSpeaking = true
    ∧ (stopSpeaking s).isSpeaking = false
    ∧ (utteranceEnd s).isSpeaking = false
    ∧ stopSpeaking (stopSpeaking s) = stopSpeaking s
    ∧ (runChat (initChatState true) es).speechQueue.length ≤ 1 := by
  refine ⟨?_, rfl, ?_, rfl, ?_, ?_⟩
  · simp [speakMessage, h]
  · simp [stopSpeaking, h]
  · simp [stopSpeaking, h]
  · exact runChat_speechQueue_le_one es (initChatState true) (by decide)

/-- Witness for C8: two back-to-back speak calls from the initial state
leave exactly the second utterance queued. -/
theorem c8_at_most_one_utterance_witness :
    (speakMessage ("second text") (speakMessage ("first text") (initChatState true))).speechQueue
      = [("second text")] :=
  (c8_at_most_one_utterance ("first text") ("second text") (initChatState true) []
    (by decide)).1

/-- C9: for every cached last assistant message and every entered
address, dispatch issues exactly one request to the email endpoint whose
recipient is the address, whose subject is the fixed literal, and whose
body is the cached message verbatim. -/
theorem c9_dispatch_wire (addr lastMsg : String) (opened nowSending : Bool) :
    dispatchRequests
        { isOpen := opened, email := addr, sending := nowSending, lastBotMessage := lastMsg }
      = [{ recipient := addr, subject := "Police Report Summary", body := lastMsg }]
    ∧ (dispatchRequests
        { isOpen := opened, email := addr, sending := nowSending,
          lastBotMessage := lastMsg }).length = 1
    ∧ (emailRequest
        { isOpen := opened, email := addr, sending := nowSending,
          lastBotMessage := lastMsg }).body = lastMsg :=
  ⟨rfl, rfl, rfl⟩

/-- C10: speak and stop are frame-preserving on the conversation state:
for every state and text, the message log, the input buffer, the error,
the lastBotMessage cache, the loading flag and the chat identifier are
all unchanged; only the speaking flag and the engine queue may move. -/
theorem c10_speech_frame (s : ChatState) (t : String) :
    ((speakMessage t s).messages = s.messages
      ∧ (speakMessage t s).input = s.input
      ∧ (speakMessage t s).error = s.error
      ∧ (speakMessage t s).lastBotMessage = s.lastBotMessage
      ∧ (speakMessage t s).isLoading = s.isLoading
      ∧ (speakMessage t s).currentChat = s.currentChat)
    ∧ ((stopSpeaking s).messages = s.messages
      ∧ (stopSpeaking s).input = s.input
      ∧ (stopSpeaking s).error = s.error
      ∧ (stopSpeaking s).lastBotMessage = s.lastBotMessage
      ∧ (stopSpeaking s).isLoading = s.isLoading
      ∧ (stopSpeaking s).currentChat = s.currentChat) := by
  cases hs : s.speechSupported <;>
    simp [speakMessage, stopSpeaking, hs]
